import Mathlib

/-!
Verification of the crypto-monitor pattern-detection and backtest engine.

The definitions below are shallow embeddings of the Python source:
`enhanced_realtime_monitor.py` (candle buffer ingestion, pattern detectors,
trend/divergence checks) and `win_rate_test.py` (pattern detectors,
`backtest_pattern`, `analyze_success_rate`).  Prices and indicator values are
rationals; a pandas NaN is modelled as `Option.none`; a missing dict key is
also modelled with `Option` where the source's two branches return dicts with
different key sets.
-/

set_option maxRecDepth 100000

namespace CryptoMonitor

/-- One OHLCV candle as stored in a `kline_buffers[symbol]` deque entry
(`process_kline_data` / `fetch_latest_klines`). -/
structure Kline where
  timestamp : Int
  open_ : ℚ
  high : ℚ
  low : ℚ
  close : ℚ
  volume : ℚ
deriving DecidableEq, Repr

/-- `collections.deque(maxlen := cap)` append: the new element goes to the
right and, if the length now exceeds `cap`, the oldest (leftmost) entries are
evicted. -/
def dequeAppend (cap : Nat) (buf : List Kline) (k : Kline) : List Kline :=
  let l := buf ++ [k]
  l.drop (l.length - cap)

/-- One incoming bar handled by `fetch_latest_klines` for one symbol.
If the cache is full (`current_cache_size >= self.buffer_size`) the code runs
in incremental mode: a bar whose timestamp is not strictly greater than the
last cached bar's timestamp is skipped (`continue`), otherwise
`process_kline_data` appends it to the deque.  Below capacity the code runs in
fill mode and appends the bar to the deque with no timestamp check. -/
def fetch_latest_step (cap : Nat) (buf : List Kline) (k : Kline) : List Kline :=
  if cap ≤ buf.length then
    match buf.getLast? with
    | some last => if k.timestamp ≤ last.timestamp then buf else dequeAppend cap buf k
    | none => dequeAppend cap buf k
  else
    dequeAppend cap buf k

/-- The four pattern-type strings used by the detectors. -/
inductive PatternType where
  | double_top
  | double_bottom
  | head_shoulder_top
  | head_shoulder_bottom
deriving DecidableEq, Repr

/-- `'top' in pattern_type.lower()` on the four pattern-type strings. -/
def isTopType : PatternType → Bool
  | .double_top => true
  | .head_shoulder_top => true
  | .double_bottom => false
  | .head_shoulder_bottom => false

/-- One row of the analysis DataFrame as used by the pattern detectors and
`backtest_pattern`: the `high`, `low`, `close` and `atr` columns. -/
structure PBar where
  high : ℚ
  low : ℚ
  close : ℚ
  atr : ℚ
deriving DecidableEq, Repr

/-- Default row used for out-of-range positional reads (never reached on the
index sets the detectors produce). -/
def dPB : PBar := ⟨0, 0, 0, 0⟩

def highsOf (df : List PBar) : List ℚ := df.map (·.high)

def lowsOf (df : List PBar) : List ℚ := df.map (·.low)

/-- `atr_volatility = (df['atr'] / df['close']).mean()`. -/
def atr_volatility (df : List PBar) : ℚ :=
  ((df.map (fun b => b.atr / b.close)).sum) / (df.length : ℚ)

/-- `scipy.signal.argrelextrema(xs, np.greater, order)` membership with the
default `clip` boundary mode: position `i` qualifies iff it is interior
(`0 < i < len-1`, clipping makes boundary points compare with themselves) and
`xs[i]` is strictly greater than every other value in the window
`[i-order, i+order]` intersected with the valid range. -/
def isLocalMax (xs : List ℚ) (order i : Nat) : Bool :=
  decide (0 < i) && decide (i + 1 < xs.length) &&
  (List.range xs.length).all (fun j =>
    decide (j = i) || decide (j + order < i) || decide (i + order < j) ||
    decide (xs.getD j 0 < xs.getD i 0))

/-- `argrelextrema(xs, np.less, order)` membership, symmetric to
`isLocalMax`. -/
def isLocalMin (xs : List ℚ) (order i : Nat) : Bool :=
  decide (0 < i) && decide (i + 1 < xs.length) &&
  (List.range xs.length).all (fun j =>
    decide (j = i) || decide (j + order < i) || decide (i + order < j) ||
    decide (xs.getD i 0 < xs.getD j 0))

/-- The sorted index array returned by `argrelextrema(..., np.greater, order)`. -/
def argrelGt (xs : List ℚ) (order : Nat) : List Nat :=
  (List.range xs.length).filter (fun i => isLocalMax xs order i)

/-- The sorted index array returned by `argrelextrema(..., np.less, order)`. -/
def argrelLt (xs : List ℚ) (order : Nat) : List Nat :=
  (List.range xs.length).filter (fun i => isLocalMin xs order i)

/-- Left fold selecting the first position holding the minimal value:
`argminAcc xs js best` scans the candidate positions `js` keeping the earliest
strict improvement, exactly the first-occurrence tie-breaking of pandas
`Series.idxmin`. -/
def argminAcc (xs : List ℚ) : List Nat → Nat → Nat
  | [], best => best
  | j :: rest, best =>
      argminAcc xs rest (if xs.getD j 0 < xs.getD best 0 then j else best)

/-- First-occurrence argmax, the tie-breaking of pandas `Series.idxmax`. -/
def argmaxAcc (xs : List ℚ) : List Nat → Nat → Nat
  | [], best => best
  | j :: rest, best =>
      argmaxAcc xs rest (if xs.getD best 0 < xs.getD j 0 then j else best)

/-- `df[col].iloc[start:stop+1].idxmin()` converted to a positional index:
first position of the minimal value on the inclusive range `[start, stop]`. -/
def sliceArgmin (xs : List ℚ) (start stop : Nat) : Nat :=
  argminAcc xs ((List.range (stop - start)).map (fun k => start + 1 + k)) start

/-- `df[col].iloc[start:stop+1].idxmax()` as a positional index. -/
def sliceArgmax (xs : List ℚ) (start stop : Nat) : Nat :=
  argmaxAcc xs ((List.range (stop - start)).map (fun k => start + 1 + k)) start

/-- Minimum of `xs` over the inclusive positional range `[start, stop]`. -/
def sliceMin (xs : List ℚ) (start stop : Nat) : ℚ :=
  ((List.range (stop - start)).map (fun k => xs.getD (start + 1 + k) 0)).foldl
    min (xs.getD start 0)

/-- Maximum of `xs` over the inclusive positional range `[start, stop]`. -/
def sliceMax (xs : List ℚ) (start stop : Nat) : ℚ :=
  ((List.range (stop - start)).map (fun k => xs.getD (start + 1 + k) 0)).foldl
    max (xs.getD start 0)

/-- A double-top/double-bottom candidate dict as appended by
`find_double_patterns`: `idx1`/`idx2` are the two extremum positions, `ref_idx`
is the `trough_idx` (top) or `peak_idx` (bottom), `price` is
`df['close'].iloc[idx2]` and `pattern_idx` the confirmation position `idx2`. -/
structure DoublePattern where
  ptype : PatternType
  idx1 : Nat
  idx2 : Nat
  ref_idx : Nat
  price : ℚ
  pattern_idx : Nat
deriving DecidableEq, Repr

/-- The filter a consecutive high-extrema pair must pass to be recorded as a
double top: span cap, near-equal peak heights, non-degenerate trough range,
and both peaks far enough above the intervening minimum low. -/
def doubleTopPass (df : List PBar) (av : ℚ) (idx1 idx2 : Nat) : Bool :=
  let h1 := (df.getD idx1 dPB).high
  let h2 := (df.getD idx2 dPB).high
  let avg_price := (h1 + h2) / 2
  let price_diff_ratio := |h1 - h2| / avg_price
  let start := min idx1 idx2
  let stop := max idx1 idx2
  let trough_price := (lowsOf df).getD (sliceArgmin (lowsOf df) start stop) 0
  decide (((idx2 : Int) - (idx1 : Int)).natAbs ≤ 100) &&
  decide (price_diff_ratio ≤ 1 * av) &&
  decide (start < stop) &&
  decide (2 * av ≤ |h1 - trough_price| / h1) &&
  decide (2 * av ≤ |h2 - trough_price| / h2)

/-- The symmetric filter for a double bottom, using the intervening maximum
high as the reference point. -/
def doubleBottomPass (df : List PBar) (av : ℚ) (idx1 idx2 : Nat) : Bool :=
  let l1 := (df.getD idx1 dPB).low
  let l2 := (df.getD idx2 dPB).low
  let avg_price := (l1 + l2) / 2
  let price_diff_ratio := |l1 - l2| / avg_price
  let start := min idx1 idx2
  let stop := max idx1 idx2
  let peak_price := (highsOf df).getD (sliceArgmax (highsOf df) start stop) 0
  decide (((idx2 : Int) - (idx1 : Int)).natAbs ≤ 100) &&
  decide (price_diff_ratio ≤ 1 * av) &&
  decide (start < stop) &&
  decide (2 * av ≤ |peak_price - l1| / l1) &&
  decide (2 * av ≤ |peak_price - l2| / l2)

/-- The dict recorded for a passing high-extrema pair. -/
def mkDoubleTop (df : List PBar) (idx1 idx2 : Nat) : DoublePattern :=
  ⟨.double_top, idx1, idx2,
    sliceArgmin (lowsOf df) (min idx1 idx2) (max idx1 idx2),
    (df.getD idx2 dPB).close, idx2⟩

/-- The dict recorded for a passing low-extrema pair. -/
def mkDoubleBottom (df : List PBar) (idx1 idx2 : Nat) : DoublePattern :=
  ⟨.double_bottom, idx1, idx2,
    sliceArgmax (highsOf df) (min idx1 idx2) (max idx1 idx2),
    (df.getD idx2 dPB).close, idx2⟩

/-- `find_double_patterns(df, window)` of `win_rate_test.py` (the body of
`_detect_double_patterns` in `enhanced_realtime_monitor.py` is identical,
wrapped in a 50-bar guard, see `detect_double_patterns`).  Both loops run
`for i in range(1, len(extrema)-1)` over the extrema array and process the
pair `(extrema[i-1], extrema[i])`. -/
def find_double_patterns (df : List PBar) (window : Nat) : List DoublePattern :=
  let av := atr_volatility df
  let high_idx := argrelGt (highsOf df) window
  let low_idx := argrelLt (lowsOf df) window
  let tops := (List.range high_idx.length).filterMap (fun i =>
    if 1 ≤ i ∧ i + 1 < high_idx.length then
      let idx1 := high_idx.getD (i - 1) 0
      let idx2 := high_idx.getD i 0
      if doubleTopPass df av idx1 idx2 then some (mkDoubleTop df idx1 idx2)
      else none
    else none)
  let bottoms := (List.range low_idx.length).filterMap (fun i =>
    if 1 ≤ i ∧ i + 1 < low_idx.length then
      let idx1 := low_idx.getD (i - 1) 0
      let idx2 := low_idx.getD i 0
      if doubleBottomPass df av idx1 idx2 then some (mkDoubleBottom df idx1 idx2)
      else none
    else none)
  tops ++ bottoms

/-- `_detect_double_patterns` of `enhanced_realtime_monitor.py`: the same body
with hardcoded `order=10` behind the `len(df) < 50` guard. -/
def detect_double_patterns (df : List PBar) : List DoublePattern :=
  if df.length < 50 then [] else find_double_patterns df 10

/-- A head-and-shoulders candidate dict as appended by
`find_head_shoulder_patterns`: three extremum positions, the neckline
reference position (`trough_idx` for a top, `peak_idx` for a bottom), the
close at the right shoulder and the confirmation position. -/
structure HSPattern where
  ptype : PatternType
  left_shoulder_idx : Nat
  head_idx : Nat
  right_shoulder_idx : Nat
  ref_idx : Nat
  price : ℚ
  pattern_idx : Nat
deriving DecidableEq, Repr

/-- The filter a consecutive high-extrema triple must pass to be recorded as a
head-and-shoulders top: both time gaps capped at 100, head strictly above both
shoulders, head-to-shoulder gaps at most `2*av` relative to the head,
near-symmetric shoulders, non-degenerate neckline range, and head at least
`1.5*av` above the intervening minimum low. -/
def hsTopPass (df : List PBar) (av : ℚ) (ls hd rs : Nat) : Bool :=
  let head_price := (df.getD hd dPB).high
  let left_price := (df.getD ls dPB).high
  let right_price := (df.getD rs dPB).high
  let start := min ls rs
  let stop := max ls rs
  let trough_price := (lowsOf df).getD (sliceArgmin (lowsOf df) start stop) 0
  decide (((hd : Int) - (ls : Int)).natAbs ≤ 100) &&
  decide (((rs : Int) - (hd : Int)).natAbs ≤ 100) &&
  decide (left_price < head_price) && decide (right_price < head_price) &&
  decide (|head_price - left_price| / head_price ≤ 2 * av) &&
  decide (|head_price - right_price| / head_price ≤ 2 * av) &&
  decide (|left_price - right_price| / ((left_price + right_price) / 2) ≤ 1 * av) &&
  decide (start < stop) &&
  decide (3 / 2 * av ≤ |head_price - trough_price| / head_price)

/-- The symmetric filter for a head-and-shoulders bottom (low extrema, head
strictly below both shoulders, `abs(head_price)` as the relative reference,
neckline = intervening maximum high). -/
def hsBottomPass (df : List PBar) (av : ℚ) (ls hd rs : Nat) : Bool :=
  let head_price := (df.getD hd dPB).low
  let left_price := (df.getD ls dPB).low
  let right_price := (df.getD rs dPB).low
  let start := min ls rs
  let stop := max ls rs
  let peak_price := (highsOf df).getD (sliceArgmax (highsOf df) start stop) 0
  decide (((hd : Int) - (ls : Int)).natAbs ≤ 100) &&
  decide (((rs : Int) - (hd : Int)).natAbs ≤ 100) &&
  decide (head_price < left_price) && decide (head_price < right_price) &&
  decide (|head_price - left_price| / |head_price| ≤ 2 * av) &&
  decide (|head_price - right_price| / |head_price| ≤ 2 * av) &&
  decide (|left_price - right_price| / ((left_price + right_price) / 2) ≤ 1 * av) &&
  decide (start < stop) &&
  decide (3 / 2 * av ≤ |peak_price - head_price| / |head_price|)

/-- The dict recorded for a passing high-extrema triple. -/
def mkHSTop (df : List PBar) (ls hd rs : Nat) : HSPattern :=
  ⟨.head_shoulder_top, ls, hd, rs,
    sliceArgmin (lowsOf df) (min ls rs) (max ls rs),
    (df.getD rs dPB).close, rs⟩

/-- The dict recorded for a passing low-extrema triple. -/
def mkHSBottom (df : List PBar) (ls hd rs : Nat) : HSPattern :=
  ⟨.head_shoulder_bottom, ls, hd, rs,
    sliceArgmax (highsOf df) (min ls rs) (max ls rs),
    (df.getD rs dPB).close, rs⟩

/-- `find_head_shoulder_patterns(df, window)` of `win_rate_test.py` (identical
to the body of `_detect_head_shoulder_patterns` in
`enhanced_realtime_monitor.py`, which wraps it in a 100-bar guard with
hardcoded `order=7`).  Both loops run `for i in range(2, len(extrema)-2)` and
process the triple `(extrema[i-2], extrema[i-1], extrema[i])` as left
shoulder, head and right shoulder. -/
def find_head_shoulder_patterns (df : List PBar) (window : Nat) : List HSPattern :=
  let av := atr_volatility df
  let high_idx := argrelGt (highsOf df) window
  let low_idx := argrelLt (lowsOf df) window
  let tops := (List.range high_idx.length).filterMap (fun i =>
    if 2 ≤ i ∧ i + 2 < high_idx.length then
      let ls := high_idx.getD (i - 2) 0
      let hd := high_idx.getD (i - 1) 0
      let rs := high_idx.getD i 0
      if hsTopPass df av ls hd rs then some (mkHSTop df ls hd rs)
      else none
    else none)
  let bottoms := (List.range low_idx.length).filterMap (fun i =>
    if 2 ≤ i ∧ i + 2 < low_idx.length then
      let ls := low_idx.getD (i - 2) 0
      let hd := low_idx.getD (i - 1) 0
      let rs := low_idx.getD i 0
      if hsBottomPass df av ls hd rs then some (mkHSBottom df ls hd rs)
      else none
    else none)
  tops ++ bottoms

/-- `_detect_head_shoulder_patterns` of `enhanced_realtime_monitor.py`. -/
def detect_head_shoulder_patterns (df : List PBar) : List HSPattern :=
  if df.length < 100 then [] else find_head_shoulder_patterns df 7

/-- The strings returned by `check_trend_status`: the four documented values
plus the `'error'` string produced by its exception handler. -/
inductive TrendStatus where
  | uptrend
  | downtrend
  | sideways
  | insufficient_data
  | error
deriving DecidableEq, Repr

/-- One row of the indicator frame consumed by `check_trend_status`; a NaN EMA
entry is `none`. -/
structure TRow where
  ema21 : Option ℚ
  ema55 : Option ℚ
deriving DecidableEq, Repr

/-- The indicator frame: its rows plus whether the `ema21`/`ema55` columns
exist at all (they are only added by `calculate_indicators`). -/
structure TFrame where
  rows : List TRow
  hasEma21 : Bool
  hasEma55 : Bool
deriving DecidableEq, Repr

/-- `check_trend_status(df, idx)`: `insufficient_data` when `idx < 50` or an
EMA column is absent or its value at `idx` is NaN; `uptrend`/`downtrend`/
`sideways` by comparing `ema21` and `ema55` at `idx`; the `except` handler
turns the `IndexError` raised by `df.iloc[idx]` on an out-of-range index into
the string `'error'`. -/
def check_trend_status (f : TFrame) (idx : Nat) : TrendStatus :=
  if idx < 50 ∨ f.hasEma21 = false ∨ f.hasEma55 = false then .insufficient_data
  else if f.rows.length ≤ idx then .error
  else
    let row := f.rows.getD idx ⟨none, none⟩
    match row.ema21, row.ema55 with
    | some a, some b =>
        if b < a then .uptrend else if a < b then .downtrend else .sideways
    | _, _ => .insufficient_data

/-- One `DIVERGENCE_CONFIG[kind]` entry. -/
structure DivCfg where
  enabled : Bool
  min_strength : ℚ
deriving DecidableEq, Repr

/-- One row of the indicator frame consumed by the divergence checks; NaN
`macd`/`rsi` entries are `none` (`volume` and `close` are raw data columns and
always present). -/
structure DRow where
  close : ℚ
  volume : ℚ
  macd : Option ℚ
  rsi : Option ℚ
deriving DecidableEq, Repr

def dDR : DRow := ⟨0, 0, none, none⟩

/-- `price_change = abs(price2 - price1) / price1` on the `close` column. -/
def price_change (df : List DRow) (idx1 idx2 : Nat) : ℚ :=
  |(df.getD idx2 dDR).close - (df.getD idx1 dDR).close| / (df.getD idx1 dDR).close

/-- `rsi_diff = abs(rsi2 - rsi1)` (NaN read as the `Option` default 0; the
checks below return `False` on NaN before this quantity is compared). -/
def rsi_diff (df : List DRow) (idx1 idx2 : Nat) : ℚ :=
  |((df.getD idx2 dDR).rsi.getD 0) - ((df.getD idx1 dDR).rsi.getD 0)|

/-- `vol_change = abs(vol2 - vol1) / vol1 if vol1 > 0 else 0`. -/
def vol_change (df : List DRow) (idx1 idx2 : Nat) : ℚ :=
  if 0 < (df.getD idx1 dDR).volume then
    |(df.getD idx2 dDR).volume - (df.getD idx1 dDR).volume| / (df.getD idx1 dDR).volume
  else 0

/-- `check_macd_divergence(df, pattern_type, idx1, idx2)`: `False` when
disabled, on an out-of-range index (either the explicit `idx2 >= len(df)`
guard or the caught `IndexError` from `iloc`), or on a NaN MACD value; then
`False` when the relative price change is below `min_strength * 0.5`;
otherwise price up with MACD down for top patterns, price down with MACD up
for bottom patterns. -/
def check_macd_divergence (cfg : DivCfg) (df : List DRow) (pt : PatternType)
    (idx1 idx2 : Nat) : Bool :=
  if cfg.enabled = false then false
  else if df.length ≤ idx2 then false
  else if df.length ≤ idx1 then false
  else
    let p1 := (df.getD idx1 dDR).close
    let p2 := (df.getD idx2 dDR).close
    match (df.getD idx1 dDR).macd, (df.getD idx2 dDR).macd with
    | some m1, some m2 =>
        if price_change df idx1 idx2 < cfg.min_strength * (1 / 2) then false
        else if isTopType pt then decide (p1 < p2) && decide (m2 < m1)
        else decide (p2 < p1) && decide (m1 < m2)
    | _, _ => false

/-- `check_rsi_divergence(df, pattern_type, idx1, idx2)`: as the MACD check
but the minimum-strength gate compares the absolute RSI change
`abs(rsi2 - rsi1)` — not the price change — against `min_strength * 0.5`. -/
def check_rsi_divergence (cfg : DivCfg) (df : List DRow) (pt : PatternType)
    (idx1 idx2 : Nat) : Bool :=
  if cfg.enabled = false then false
  else if df.length ≤ idx2 then false
  else if df.length ≤ idx1 then false
  else
    let p1 := (df.getD idx1 dDR).close
    let p2 := (df.getD idx2 dDR).close
    match (df.getD idx1 dDR).rsi, (df.getD idx2 dDR).rsi with
    | some r1, some r2 =>
        if rsi_diff df idx1 idx2 < cfg.min_strength * (1 / 2) then false
        else if isTopType pt then decide (p1 < p2) && decide (r2 < r1)
        else decide (p2 < p1) && decide (r1 < r2)
    | _, _ => false

/-- `check_volume_divergence(df, pattern_type, idx1, idx2)`: the
minimum-strength gate compares the relative volume change — not the price
change — against `min_strength * 0.5`. -/
def check_volume_divergence (cfg : DivCfg) (df : List DRow) (pt : PatternType)
    (idx1 idx2 : Nat) : Bool :=
  if cfg.enabled = false then false
  else if df.length ≤ idx2 then false
  else if df.length ≤ idx1 then false
  else
    let p1 := (df.getD idx1 dDR).close
    let p2 := (df.getD idx2 dDR).close
    let v1 := (df.getD idx1 dDR).volume
    let v2 := (df.getD idx2 dDR).volume
    if vol_change df idx1 idx2 < cfg.min_strength * (1 / 2) then false
    else if isTopType pt then decide (p1 < p2) && decide (v2 < v1)
    else decide (p2 < p1) && decide (v1 < v2)

/-- The dict returned by `backtest_pattern`.  The early-return branch (not
enough future bars) returns a dict without the `no_action` key and with NaN
`stop_loss`/`target`; both absences are modelled as `none`. -/
structure BTResult where
  hit_stop : Bool
  hit_target : Bool
  no_action : Option Bool
  stop_loss : Option ℚ
  target : Option ℚ
deriving DecidableEq, Repr

/-- Whether a future bar breaches the stop level (checked first inside each
bar): `row['high'] >= stop_loss` for a short, `row['low'] <= stop_loss` for a
long. -/
def stopBreach (top : Bool) (stop : ℚ) (b : PBar) : Bool :=
  if top then decide (stop ≤ b.high) else decide (b.low ≤ stop)

/-- Whether a future bar reaches the target level (checked only when the stop
was not breached in the same bar). -/
def targetReach (top : Bool) (target : ℚ) (b : PBar) : Bool :=
  if top then decide (b.low ≤ target) else decide (target ≤ b.high)

/-- The `for`-loop of `backtest_pattern` over the future bars: returns
`(hit_stop, hit_target)`, stopping at the first bar that breaches either
level, with the stop checked before the target inside each bar. -/
def scanBars (top : Bool) (stop target : ℚ) : List PBar → Bool × Bool
  | [] => (false, false)
  | b :: rest =>
      if stopBreach top stop b then (true, false)
      else if targetReach top target b then (false, true)
      else scanBars top stop target rest

/-- `backtest_pattern(df, pattern_type, pattern_idx)`.  The guard
`pattern_idx >= len(df) - 48` (Python integer arithmetic) is equivalent to
`len(df) <= pattern_idx + 48` for a non-negative index.  Otherwise: entry =
close at the confirmation bar; for top patterns stop = high + ATR and target =
entry - 2*(stop-entry); for bottom patterns stop = low - ATR and target =
entry + 2*(entry-stop); then the next 48 bars `df.iloc[idx+1 : idx+49]` are
scanned. -/
def backtest_pattern (df : List PBar) (pt : PatternType) (pattern_idx : Nat) :
    BTResult :=
  if df.length ≤ pattern_idx + 48 then
    ⟨false, false, none, none, none⟩
  else
    let bar := df.getD pattern_idx dPB
    let entry_price := bar.close
    let atr_value := bar.atr
    let stop_loss := if isTopType pt then bar.high + atr_value else bar.low - atr_value
    let target :=
      if isTopType pt then entry_price - 2 * (stop_loss - entry_price)
      else entry_price + 2 * (entry_price - stop_loss)
    let future := (df.drop (pattern_idx + 1)).take 48
    let hits := scanBars (isTopType pt) stop_loss target future
    ⟨hits.1, hits.2, some (!hits.1 && !hits.2), some stop_loss, some target⟩

/-- One row of the `results_df` consumed by `analyze_success_rate`: the
backtest outcome flags plus the corroboration-indicator columns used in the
breakdowns. -/
structure BTRecord where
  pattern_type : PatternType
  hit_stop : Bool
  hit_target : Bool
  macd_divergence : Bool
  rsi_divergence : Bool
  volume_divergence : Bool
  trend_ok : Bool
deriving DecidableEq, Repr

/-- `success_count`: rows with `hit_target == True`. -/
def successCount (rs : List BTRecord) : Nat :=
  (rs.filter (fun r => r.hit_target)).length

/-- `first_stop`: rows with `hit_stop == True` and `hit_target == False`. -/
def firstStopCount (rs : List BTRecord) : Nat :=
  (rs.filter (fun r => r.hit_stop && !r.hit_target)).length

/-- `no_action_count`: rows with neither flag set. -/
def noActionCount (rs : List BTRecord) : Nat :=
  (rs.filter (fun r => !r.hit_stop && !r.hit_target)).length

/-- The effective-trade win rate of `analyze_success_rate` (as a percentage):
`success_count / (success_count + first_stop) * 100 if effective > 0 else 0`. -/
def winRate (rs : List BTRecord) : ℚ :=
  let effective := successCount rs + firstStopCount rs
  if 0 < effective then (successCount rs : ℚ) / (effective : ℚ) * 100 else 0

/-- The per-pattern-type win rate: the same computation on the rows whose
`pattern_type` matches. -/
def patternWinRate (rs : List BTRecord) (pt : PatternType) : ℚ :=
  winRate (rs.filter (fun r => r.pattern_type = pt))

/-- The `main_indicators` corroboration flags combined in the per-combination
breakdown. -/
inductive Indicator where
  | macd_divergence
  | rsi_divergence
  | volume_divergence
  | trend_ok
deriving DecidableEq, Repr

/-- Whether a row has the given indicator column equal to 1/True. -/
def indicatorHolds (r : BTRecord) : Indicator → Bool
  | .macd_divergence => r.macd_divergence
  | .rsi_divergence => r.rsi_divergence
  | .volume_divergence => r.volume_divergence
  | .trend_ok => r.trend_ok

/-- `combo_data`: the rows on which every indicator of the combination is
True. -/
def comboFilter (rs : List BTRecord) (combo : List Indicator) : List BTRecord :=
  rs.filter (fun r => combo.all (indicatorHolds r))

/-- The sample-count condition for a combination to be considered in the
best-combination report: `len(combo_data) >= 5`. -/
def comboQualifies (rs : List BTRecord) (combo : List Indicator) : Bool :=
  decide (5 ≤ (comboFilter rs combo).length)

/-- `combo_win_rate = combo_successful / len(combo_data) * 100`: the
win rate printed in the per-indicator-combination breakdown divides the
successes by all samples of the combination, `no_action` rows included. -/
def comboWinRate (rs : List BTRecord) (combo : List Indicator) : ℚ :=
  (successCount (comboFilter rs combo) : ℚ) / ((comboFilter rs combo).length : ℚ) * 100

/-! Helper lemmas. -/

lemma foldl_min_le_init (l : List ℚ) (a : ℚ) : l.foldl min a ≤ a := by
  induction l generalizing a with
  | nil => exact le_refl a
  | cons x l ih => exact le_trans (ih (min a x)) (min_le_left a x)

lemma foldl_min_le_mem (l : List ℚ) (a x : ℚ) (hx : x ∈ l) : l.foldl min a ≤ x := by
  induction l generalizing a with
  | nil => cases hx
  | cons y l ih =>
      rcases List.mem_cons.mp hx with rfl | hx
      · exact le_trans (foldl_min_le_init l (min a x)) (min_le_right a x)
      · exact ih (min a y) hx

lemma argminAcc_getD (xs : List ℚ) (js : List Nat) (best : Nat) :
    xs.getD (argminAcc xs js best) 0 =
      (js.map (fun j => xs.getD j 0)).foldl min (xs.getD best 0) := by
  induction js generalizing best with
  | nil => rfl
  | cons j rest ih =>
      simp only [argminAcc, List.map_cons, List.foldl_cons]
      rw [ih]
      congr 1
      by_cases h : xs.getD j 0 < xs.getD best 0
      · rw [if_pos h, min_eq_right h.le]
      · rw [if_neg h, min_eq_left (not_lt.mp h)]

lemma sliceArgmin_getD (xs : List ℚ) (start stop : Nat) :
    xs.getD (sliceArgmin xs start stop) 0 = sliceMin xs start stop := by
  unfold sliceArgmin sliceMin
  rw [argminAcc_getD, List.map_map]
  rfl

lemma sliceMin_le (xs : List ℚ) (start stop j : Nat) (h1 : start ≤ j)
    (h2 : j ≤ stop) : sliceMin xs start stop ≤ xs.getD j 0 := by
  unfold sliceMin
  rcases eq_or_lt_of_le h1 with rfl | hlt
  · exact foldl_min_le_init _ _
  · refine foldl_min_le_mem _ _ _ ?_
    refine List.mem_map.mpr ⟨j - start - 1, List.mem_range.mpr (by omega), ?_⟩
    congr 1
    omega

lemma lowsOf_getD (df : List PBar) (i : Nat) :
    (lowsOf df).getD i 0 = (df.getD i dPB).low := by
  unfold lowsOf
  rcases h : df[i]? with _ | b
  · simp [List.getD_eq_getElem?_getD, List.getElem?_map, h, dPB]
  · simp [List.getD_eq_getElem?_getD, List.getElem?_map, h]

lemma highsOf_getD (df : List PBar) (i : Nat) :
    (highsOf df).getD i 0 = (df.getD i dPB).high := by
  unfold highsOf
  rcases h : df[i]? with _ | b
  · simp [List.getD_eq_getElem?_getD, List.getElem?_map, h, dPB]
  · simp [List.getD_eq_getElem?_getD, List.getElem?_map, h]

/-- Well-formed OHLC data: the low of a bar never exceeds its high. -/
def wellFormed (df : List PBar) : Prop := ∀ b ∈ df, b.low ≤ b.high

instance (df : List PBar) : Decidable (wellFormed df) := by
  unfold wellFormed; infer_instance

lemma wellFormed_getD (df : List PBar) (hwf : wellFormed df) (i : Nat) :
    (df.getD i dPB).low ≤ (df.getD i dPB).high := by
  rcases h : df[i]? with _ | b
  · simp [List.getD_eq_getElem?_getD, h, dPB]
  · have hb : b ∈ df := List.getElem?_mem h
    simp only [List.getD_eq_getElem?_getD, h, Option.getD_some]
    exact hwf b hb

/-- The first future bar that breaches either level. -/
def firstBreach (top : Bool) (stop target : ℚ) (l : List PBar) : Option PBar :=
  l.find? (fun x => stopBreach top stop x || targetReach top target x)

lemma scanBars_fst (top : Bool) (s t : ℚ) (l : List PBar) :
    (scanBars top s t l).1 = true ↔
      ∃ b, firstBreach top s t l = some b ∧ stopBreach top s b = true := by
  induction l with
  | nil => simp [scanBars, firstBreach]
  | cons b rest ih =>
      by_cases hs : stopBreach top s b
      · simp [scanBars, firstBreach, hs]
      · by_cases ht : targetReach top t b
        · simp [scanBars, firstBreach, hs, ht]
        · simpa [scanBars, firstBreach, hs, ht] using ih

lemma scanBars_snd (top : Bool) (s t : ℚ) (l : List PBar) :
    (scanBars top s t l).2 = true ↔
      ∃ b, firstBreach top s t l = some b ∧ stopBreach top s b = false ∧
        targetReach top t b = true := by
  induction l with
  | nil => simp [scanBars, firstBreach]
  | cons b rest ih =>
      by_cases hs : stopBreach top s b
      · simp [scanBars, firstBreach, hs]
      · by_cases ht : targetReach top t b
        · simp [scanBars, firstBreach, hs, ht]
        · simpa [scanBars, firstBreach, hs, ht] using ih

lemma scanBars_not_both (top : Bool) (s t : ℚ) (l : List PBar) :
    ¬((scanBars top s t l).1 = true ∧ (scanBars top s t l).2 = true) := by
  induction l with
  | nil => simp [scanBars]
  | cons b rest ih =>
      by_cases hs : stopBreach top s b
      · simp [scanBars, hs]
      · by_cases ht : targetReach top t b
        · simp [scanBars, hs, ht]
        · simpa [scanBars, hs, ht] using ih

/-- The property C4 asserts of a backtest run with enough future bars: the
scanned window is exactly the next 48 bars, the hit flags are decided by the
first bar breaching either level with the stop taking precedence inside a bar,
and exactly one of `hit_stop`/`hit_target`/`no_action` is true. -/
def BacktestRunProp (df : List PBar) (pt : PatternType) (idx : Nat) : Prop :=
  let r := backtest_pattern df pt idx
  let top := isTopType pt
  let bar := df.getD idx dPB
  let stop := if top then bar.high + bar.atr else bar.low - bar.atr
  let target :=
    if top then bar.close - 2 * (stop - bar.close) else bar.close + 2 * (bar.close - stop)
  let future := (df.drop (idx + 1)).take 48
  future.length = 48 ∧
  (r.hit_stop = true ↔
    ∃ b, firstBreach top stop target future = some b ∧ stopBreach top stop b = true) ∧
  (r.hit_target = true ↔
    ∃ b, firstBreach top stop target future = some b ∧ stopBreach top stop b = false ∧
      targetReach top target b = true) ∧
  ((r.hit_stop = true ∧ r.hit_target = false ∧ r.no_action = some false) ∨
   (r.hit_stop = false ∧ r.hit_target = true ∧ r.no_action = some false) ∨
   (r.hit_stop = false ∧ r.hit_target = false ∧ r.no_action = some true))

/-- The stop/target levels C8 asserts of a backtest run with enough future
bars, split by pattern direction. -/
def stopTargetSpec (df : List PBar) (pt : PatternType) (idx : Nat) : Prop :=
  let bar := df.getD idx dPB
  let r := backtest_pattern df pt idx
  if isTopType pt then
    r.stop_loss = some (bar.high + bar.atr) ∧
    r.target = some (bar.close - 2 * ((bar.high + bar.atr) - bar.close))
  else
    r.stop_loss = some (bar.low - bar.atr) ∧
    r.target = some (bar.close + 2 * (bar.close - (bar.low - bar.atr)))

/-- The four documented trend-status values together with the case analysis C9
asserts for an in-range index. -/
def trendStatusSpec (f : TFrame) (idx : Nat) : Prop :=
  let r := check_trend_status f idx
  (r = .uptrend ∨ r = .downtrend ∨ r = .sideways ∨ r = .insufficient_data) ∧
  (if idx < 50 ∨ f.hasEma21 = false ∨ f.hasEma55 = false then r = .insufficient_data
   else
     match (f.rows.getD idx ⟨none, none⟩).ema21, (f.rows.getD idx ⟨none, none⟩).ema55 with
     | some a, some b =>
         r = (if b < a then .uptrend else if a < b then .downtrend else .sideways)
     | _, _ => r = .insufficient_data)

/-- The geometric invariant C6 asserts of an emitted double top: near-equal
peaks and both peaks at least `2 * atr_volatility` (relative to the peak's own
price) above the minimum low between them. -/
def doubleTopInvariant (df : List PBar) (p : DoublePattern) : Prop :=
  let h1 := (df.getD p.idx1 dPB).high
  let h2 := (df.getD p.idx2 dPB).high
  let m := sliceMin (lowsOf df) (min p.idx1 p.idx2) (max p.idx1 p.idx2)
  let av := atr_volatility df
  |h1 - h2| / ((h1 + h2) / 2) ≤ 1 * av ∧
  2 * av ≤ (h1 - m) / h1 ∧
  2 * av ≤ (h2 - m) / h2

/-- The dominance invariant C7 asserts of an emitted head-and-shoulders
candidate: the head strictly exceeds both shoulders (top) or is strictly below
both shoulders (bottom). -/
def headDominates (df : List PBar) (p : HSPattern) : Prop :=
  match p.ptype with
  | .head_shoulder_top =>
      (df.getD p.left_shoulder_idx dPB).high < (df.getD p.head_idx dPB).high ∧
      (df.getD p.right_shoulder_idx dPB).high < (df.getD p.head_idx dPB).high
  | .head_shoulder_bottom =>
      (df.getD p.head_idx dPB).low < (df.getD p.left_shoulder_idx dPB).low ∧
      (df.getD p.head_idx dPB).low < (df.getD p.right_shoulder_idx dPB).low
  | _ => True

/-- The extrema list the double-pattern loops iterate over, by direction. -/
def doubleExtrema (df : List PBar) (window : Nat) : Bool → List Nat
  | true => argrelGt (highsOf df) window
  | false => argrelLt (lowsOf df) window

/-- The pass filter of the double-pattern loops, by direction. -/
def doublePass (df : List PBar) : Bool → Nat → Nat → Bool
  | true, idx1, idx2 => doubleTopPass df (atr_volatility df) idx1 idx2
  | false, idx1, idx2 => doubleBottomPass df (atr_volatility df) idx1 idx2

/-- The candidate recorded by the double-pattern loops, by direction. -/
def mkDouble (df : List PBar) : Bool → Nat → Nat → DoublePattern
  | true, idx1, idx2 => mkDoubleTop df idx1 idx2
  | false, idx1, idx2 => mkDoubleBottom df idx1 idx2

/-! Concrete inputs used by witnesses and counterexamples. -/

/-- A first cached bar with timestamp 1. -/
def exK1 : Kline := ⟨1, 10, 11, 9, 10, 100⟩

/-- A stale incoming bar with the same timestamp 1. -/
def exK2 : Kline := ⟨1, 10, 12, 8, 11, 200⟩

/-- A later bar with timestamp 2. -/
def exK3 : Kline := ⟨2, 10, 11, 9, 10, 100⟩

/-- A bar with timestamp 2, stale relative to `exK3`. -/
def exK4 : Kline := ⟨2, 11, 12, 10, 11, 150⟩

/-- 50 bars whose high column has exactly two order-10 local maxima, at
positions 1 and 13 (height 100 over a baseline of 90), with the minimum low
50 at position 7, constant close 100 and constant ATR 1, so that
`atr_volatility = 1/100` and the pair (1, 13) passes every double-top
filter. -/
def exC3 : List PBar :=
  (List.range 50).map (fun i =>
    ⟨if i = 1 ∨ i = 13 then 100 else 90,
      if i = 7 then 50 else if i = 1 ∨ i = 13 then 90 else 80, 100, 1⟩)

/-- 27 bars with three order-10 local high maxima at positions 1, 13 and 25,
so the loop processes the pair (1, 13); the trough low 50 sits at
position 7. -/
def exC6 : List PBar :=
  (List.range 27).map (fun i =>
    ⟨if i = 1 ∨ i = 13 ∨ i = 25 then 100 else 90,
      if i = 7 then 50 else if i = 1 ∨ i = 13 ∨ i = 25 then 90 else 80, 100, 1⟩)

/-- 35 bars with five order-7 local high maxima at 1, 9, 17, 25 and 33; the
head at 9 (high 102) strictly dominates the shoulders at 1 and 17 (high 100),
the neckline low 80 sits at position 5, close 100 and ATR 2 give
`atr_volatility = 1/50`, so the triple (1, 9, 17) passes every
head-and-shoulders-top filter. -/
def exC7 : List PBar :=
  (List.range 35).map (fun i =>
    ⟨if i = 9 then 102 else if i = 1 ∨ i = 17 ∨ i = 25 ∨ i = 33 then 100 else 90,
      if i = 5 then 80 else 90, 100, 2⟩)

/-- 50 identical bars (high = low = close = 1, ATR = 1): enough future bars
for a backtest at index 0, and no level is ever touched. -/
def exBT : List PBar := List.replicate 50 ⟨1, 1, 1, 1⟩

/-- 10 bars only: too short for a backtest at any index. -/
def exShort : List PBar := List.replicate 10 ⟨1, 1, 1, 1⟩

/-- A 51-row indicator frame with both EMA columns present and defined,
`ema21 = 2 > ema55 = 1` everywhere. -/
def exTF : TFrame := ⟨List.replicate 51 ⟨some 2, some 1⟩, true, true⟩

/-- The `DIVERGENCE_CONFIG` entry used in `realtime_config.py`:
enabled with `min_strength = 0.1`. -/
def exCfg : DivCfg := ⟨true, 1 / 10⟩

/-- Two rows whose close rises only by 0.1% (far below the 5% gate) while the
RSI falls by 10 points: the RSI check signals divergence for a top pattern
even though the price change is negligible. -/
def exD5 : List DRow :=
  [⟨1000, 100, some 1, some 60⟩, ⟨1001, 100, some 1, some 50⟩]

/-- Two rows with negligible price, RSI and volume changes. -/
def exD5q : List DRow :=
  [⟨1000, 100, some 1, some 60⟩, ⟨1001, 100, some 1, some 60⟩]

/-- Six backtest rows, all four corroboration flags true on each: three
target hits, one first stop, two no-action outcomes. -/
def rs6 : List BTRecord :=
  [⟨.double_top, false, true, true, true, true, true⟩,
   ⟨.double_top, false, true, true, true, true, true⟩,
   ⟨.double_top, false, true, true, true, true, true⟩,
   ⟨.double_top, true, false, true, true, true, true⟩,
   ⟨.double_top, false, false, true, true, true, true⟩,
   ⟨.double_top, false, false, true, true, true, true⟩]

/-- The MACD+RSI combination of the breakdown loop. -/
def exCombo : List Indicator := [.macd_divergence, .rsi_divergence]

/-! Claim theorems. -/

/-- C2 (amended): when the buffer has reached its configured capacity
(incremental-update mode), an incoming bar whose timestamp is not strictly
greater than the last buffered bar's timestamp is skipped and the buffer is
left unchanged.  (Below capacity the fill path appends without any timestamp
check, see the counterexample.) -/
theorem buffer_skip_when_full (cap : Nat) (buf : List Kline) (k last : Kline)
    (hfull : cap ≤ buf.length) (hlast : buf.getLast? = some last)
    (hts : k.timestamp ≤ last.timestamp) :
    fetch_latest_step cap buf k = buf := by
  unfold fetch_latest_step
  rw [if_pos hfull, hlast]
  exact if_pos hts

/-- Witness for C2: a full two-bar buffer skips a bar whose timestamp equals
the last cached timestamp. -/
theorem buffer_skip_when_full_witness :
    fetch_latest_step 2 [exK1, exK3] exK4 = [exK1, exK3] :=
  buffer_skip_when_full 2 [exK1, exK3] exK4 exK3 (by decide) (by decide) (by decide)

/-- Counterexample for C2 as stated: below capacity (fill mode) a bar whose
timestamp is not strictly greater than the last buffered bar's timestamp is
appended anyway — the append is not a no-op and the stored timestamps are no
longer strictly increasing. -/
theorem buffer_stale_append_counterexample :
    exK2.timestamp ≤ exK1.timestamp ∧
    fetch_latest_step 144 [exK1] exK2 = [exK1, exK2] ∧
    fetch_latest_step 144 [exK1] exK2 ≠ [exK1] := by decide

/-- C10 (confirmed): with fewer than 48 subsequent bars
(`pattern_idx >= len(df) - 48`) the backtest returns, for every input frame
and pattern type, the fixed early-return record: both hit flags false, NaN
stop/target (`none`), and no `no_action` entry (`none`) — so the result is
independent of all price data. -/
theorem backtest_early_return (df : List PBar) (pt : PatternType) (idx : Nat)
    (h : df.length ≤ idx + 48) :
    backtest_pattern df pt idx = ⟨false, false, none, none, none⟩ := by
  unfold backtest_pattern
  exact if_pos h

/-- Witness for C10: a 10-bar frame at index 0. -/
theorem backtest_early_return_witness :
    backtest_pattern exShort PatternType.double_top 0 = ⟨false, false, none, none, none⟩ :=
  backtest_early_return exShort PatternType.double_top 0 (by decide)

/-- C8 (confirmed): with at least 48 subsequent bars, top patterns get
stop = confirmation high + ATR and target = entry − 2·(stop − entry), bottom
patterns get stop = confirmation low − ATR and target = entry + 2·(entry −
stop), where entry is the confirmation bar's close. -/
theorem backtest_stop_target (df : List PBar) (pt : PatternType) (idx : Nat)
    (h : idx + 48 < df.length) : stopTargetSpec df pt idx := by
  have hg : ¬ df.length ≤ idx + 48 := by omega
  unfold stopTargetSpec backtest_pattern
  by_cases htop : isTopType pt
  · simp [htop, hg]
  · simp [htop, hg]

/-- Witness for C8: the constant 50-bar frame at index 0. -/
theorem backtest_stop_target_witness :
    stopTargetSpec exBT PatternType.double_top 0 :=
  backtest_stop_target exBT PatternType.double_top 0 (by decide)

/-- C9 (amended): for every in-range index the trend check returns one of the
four documented values, with the documented case analysis (`insufficient_data`
when `idx < 50` or an EMA column is absent or NaN, else the EMA comparison).
For an out-of-range index ≥ 50 the exception handler returns `error`, see the
counterexample. -/
theorem trend_status_in_range (f : TFrame) (idx : Nat)
    (h : idx < f.rows.length) : trendStatusSpec f idx := by
  have h2 : ¬ f.rows.length ≤ idx := not_le.mpr h
  unfold trendStatusSpec check_trend_status
  by_cases h1 : idx < 50 ∨ f.hasEma21 = false ∨ f.hasEma55 = false
  · simp [h1]
  · simp only [if_neg h1, if_neg h2]
    rcases hA : (f.rows.getD idx ⟨none, none⟩).ema21 with _ | a <;>
      rcases hB : (f.rows.getD idx ⟨none, none⟩).ema55 with _ | b <;>
      simp [h1, hA, hB] <;> split_ifs <;> first | assumption | simp_all

/-- Witness for C9: a 51-row frame with defined EMAs at index 50. -/
theorem trend_status_in_range_witness : trendStatusSpec exTF 50 :=
  trend_status_in_range exTF 50 (by decide)

/-- Counterexample for C9 as stated: at the out-of-range index 60 of a 51-row
frame (with both EMA columns present) the check returns `error`, a value
outside the four-element set. -/
theorem trend_status_error_counterexample :
    check_trend_status exTF 60 = TrendStatus.error ∧
    ¬(check_trend_status exTF 60 = TrendStatus.uptrend ∨
      check_trend_status exTF 60 = TrendStatus.downtrend ∨
      check_trend_status exTF 60 = TrendStatus.sideways ∨
      check_trend_status exTF 60 = TrendStatus.insufficient_data) := by decide

/-- C5 (amended): each divergence check returns false whenever its own gating
quantity is below `0.5 ×` its configured minimum strength — the relative
price change for MACD, the absolute RSI change for RSI, and the relative
volume change for volume.  (Only the MACD check gates on the price change;
see the counterexample.) -/
theorem divergence_gate (mcfg rcfg vcfg : DivCfg) (df : List DRow)
    (pt : PatternType) (i1 i2 : Nat)
    (hm : price_change df i1 i2 < mcfg.min_strength * (1 / 2))
    (hr : rsi_diff df i1 i2 < rcfg.min_strength * (1 / 2))
    (hv : vol_change df i1 i2 < vcfg.min_strength * (1 / 2)) :
    check_macd_divergence mcfg df pt i1 i2 = false ∧
    check_rsi_divergence rcfg df pt i1 i2 = false ∧
    check_volume_divergence vcfg df pt i1 i2 = false := by
  refine ⟨?_, ?_, ?_⟩
  · simp only [check_macd_divergence]
    by_cases hen : mcfg.enabled = false
    · simp [hen]
    · by_cases hb2 : df.length ≤ i2
      · simp [hen, hb2]
      · by_cases hb1 : df.length ≤ i1
        · simp [hen, hb2, hb1]
        · simp only [if_neg hen, if_neg hb2, if_neg hb1]
          rcases hm1 : (df.getD i1 dDR).macd with _ | m1
          · simp [hm1]
          · rcases hm2 : (df.getD i2 dDR).macd with _ | m2
            · simp [hm1, hm2]
            · simp only [hm1, hm2]
              rw [if_pos hm]
  · simp only [check_rsi_divergence]
    by_cases hen : rcfg.enabled = false
    · simp [hen]
    · by_cases hb2 : df.length ≤ i2
      · simp [hen, hb2]
      · by_cases hb1 : df.length ≤ i1
        · simp [hen, hb2, hb1]
        · simp only [if_neg hen, if_neg hb2, if_neg hb1]
          rcases hr1 : (df.getD i1 dDR).rsi with _ | r1
          · simp [hr1]
          · rcases hr2 : (df.getD i2 dDR).rsi with _ | r2
            · simp [hr1, hr2]
            · simp only [hr1, hr2]
              rw [if_pos hr]
  · simp only [check_volume_divergence]
    split_ifs with hen hb2 hb1 hg htop <;> first | rfl | exact absurd hv hg

/-- Witness for C5: with all three changes negligible every check returns
false. -/
theorem divergence_gate_witness :
    check_macd_divergence exCfg exD5q PatternType.double_top 0 1 = false ∧
    check_rsi_divergence exCfg exD5q PatternType.double_top 0 1 = false ∧
    check_volume_divergence exCfg exD5q PatternType.double_top 0 1 = false :=
  divergence_gate exCfg exCfg exCfg exD5q PatternType.double_top 0 1
    (by norm_num [price_change, exD5q, exCfg, dDR])
    (by norm_num [rsi_diff, exD5q, exCfg, dDR])
    (by norm_num [vol_change, exD5q, exCfg, dDR])

/-- Counterexample for C5 as stated: a price change of 0.1% (far below
`0.5 × 0.1 = 5%`) does not make the RSI check return false — it signals
divergence because its gate looks at the RSI change instead. -/
theorem divergence_price_gate_counterexample :
    price_change exD5 0 1 < (1 / 10 : ℚ) * (1 / 2) ∧
    check_rsi_divergence exCfg exD5 PatternType.double_top 0 1 = true := by
  constructor
  · norm_num [price_change, exD5, dDR]
  · norm_num [check_rsi_divergence, rsi_diff, exD5, exCfg, dDR, isTopType]

/-! Evaluation helpers for the synthetic series. -/

lemma atr_volatility_map_const (n : Nat) (g : Nat → PBar) (c : ℚ)
    (hc : ∀ i, (g i).atr / (g i).close = c) :
    atr_volatility ((List.range n).map g) = (n : ℚ) * c / (n : ℚ) := by
  unfold atr_volatility
  rw [List.map_map, List.length_map, List.length_range]
  have hfun : ((fun b => b.atr / b.close) ∘ g) = fun _ => c := funext (fun i => hc i)
  rw [hfun, List.map_const', List.sum_replicate, List.length_range, nsmul_eq_mul]

lemma exC3_av : atr_volatility exC3 = 1 / 100 := by
  unfold exC3
  rw [atr_volatility_map_const 50 _ (1 / 100) (fun i => by norm_num)]
  norm_num

lemma exC6_av : atr_volatility exC6 = 1 / 100 := by
  unfold exC6
  rw [atr_volatility_map_const 27 _ (1 / 100) (fun i => by norm_num)]
  norm_num

lemma exC7_av : atr_volatility exC7 = 1 / 50 := by
  unfold exC7
  rw [atr_volatility_map_const 35 _ (1 / 50) (fun i => by norm_num)]
  norm_num

lemma exC3_pass : doubleTopPass exC3 (atr_volatility exC3) 1 13 = true := by
  rw [exC3_av]
  have e1 : (exC3.getD 1 dPB).high = 100 := by decide
  have e2 : (exC3.getD 13 dPB).high = 100 := by decide
  have et : (lowsOf exC3).getD (sliceArgmin (lowsOf exC3) (min 1 13) (max 1 13)) 0 = 50 := by
    decide
  simp only [doubleTopPass, e1, e2, et, Bool.and_eq_true, decide_eq_true_eq]
  exact ⟨⟨⟨⟨by decide, by norm_num⟩, by decide⟩, by norm_num⟩, by norm_num⟩

lemma exC6_pass : doubleTopPass exC6 (atr_volatility exC6) 1 13 = true := by
  rw [exC6_av]
  have e1 : (exC6.getD 1 dPB).high = 100 := by decide
  have e2 : (exC6.getD 13 dPB).high = 100 := by decide
  have et : (lowsOf exC6).getD (sliceArgmin (lowsOf exC6) (min 1 13) (max 1 13)) 0 = 50 := by
    decide
  simp only [doubleTopPass, e1, e2, et, Bool.and_eq_true, decide_eq_true_eq]
  exact ⟨⟨⟨⟨by decide, by norm_num⟩, by decide⟩, by norm_num⟩, by norm_num⟩

lemma exC7_pass : hsTopPass exC7 (atr_volatility exC7) 1 9 17 = true := by
  rw [exC7_av]
  have e1 : (exC7.getD 1 dPB).high = 100 := by decide
  have e2 : (exC7.getD 9 dPB).high = 102 := by decide
  have e3 : (exC7.getD 17 dPB).high = 100 := by decide
  have et : (lowsOf exC7).getD (sliceArgmin (lowsOf exC7) (min 1 17) (max 1 17)) 0 = 80 := by
    decide
  simp only [hsTopPass, e1, e2, e3, et, Bool.and_eq_true, decide_eq_true_eq]
  exact ⟨⟨⟨⟨⟨⟨⟨⟨by decide, by decide⟩, by norm_num⟩, by norm_num⟩, by norm_num⟩,
    by norm_num⟩, by norm_num⟩, by decide⟩, by norm_num⟩

lemma exC6_patterns : find_double_patterns exC6 10 = [mkDoubleTop exC6 1 13] := by
  have hg : argrelGt (highsOf exC6) 10 = [1, 13, 25] := by decide
  have hl : argrelLt (lowsOf exC6) 10 = [7] := by decide
  simp only [find_double_patterns, hg, hl]
  norm_num [List.range_succ, List.filterMap_cons, List.getElem?_cons_zero,
    List.getElem?_cons_succ, exC6_pass]

lemma exC7_patterns : find_head_shoulder_patterns exC7 7 = [mkHSTop exC7 1 9 17] := by
  have hg : argrelGt (highsOf exC7) 7 = [1, 9, 17, 25, 33] := by decide
  have hl : argrelLt (lowsOf exC7) 7 = [5] := by decide
  simp only [find_head_shoulder_patterns, hg, hl]
  norm_num [List.range_succ, List.filterMap_cons, List.getElem?_cons_zero,
    List.getElem?_cons_succ, exC7_pass]

/-- C3 (amended): the double-pattern loops run over the pairs
`(extrema[i-1], extrema[i])` for `1 ≤ i ≤ len-2` only — the pair ending at
the last extremum is never examined (see the counterexample) — and for every
examined pair that passes the span, near-equal-height and trough-depth tests
a candidate anchored at the second extremum is emitted, for highs/double-top
(`top = true`) and lows/double-bottom (`top = false`) alike. -/
theorem double_pair_emits (df : List PBar) (window i : Nat) (top : Bool)
    (h1 : 1 ≤ i) (h2 : i + 1 < (doubleExtrema df window top).length)
    (hpass : doublePass df top ((doubleExtrema df window top).getD (i - 1) 0)
      ((doubleExtrema df window top).getD i 0) = true) :
    mkDouble df top ((doubleExtrema df window top).getD (i - 1) 0)
      ((doubleExtrema df window top).getD i 0) ∈ find_double_patterns df window := by
  cases top with
  | true =>
      simp only [doubleExtrema, doublePass, mkDouble] at h2 hpass ⊢
      simp only [find_double_patterns]
      apply List.mem_append_left
      apply List.mem_filterMap.mpr
      refine ⟨i, List.mem_range.mpr (by omega), ?_⟩
      rw [if_pos ⟨h1, h2⟩, if_pos hpass]
  | false =>
      simp only [doubleExtrema, doublePass, mkDouble] at h2 hpass ⊢
      simp only [find_double_patterns]
      apply List.mem_append_right
      apply List.mem_filterMap.mpr
      refine ⟨i, List.mem_range.mpr (by omega), ?_⟩
      rw [if_pos ⟨h1, h2⟩, if_pos hpass]

/-- Witness for C3: on the 27-bar series the pair (1, 13) — extrema positions
0 and 1 of three — passes and its double top is emitted. -/
theorem double_pair_emits_witness :
    mkDouble exC6 true 1 13 ∈ find_double_patterns exC6 10 :=
  double_pair_emits exC6 10 1 true (by decide) (by decide)
    (by
      rw [show doubleExtrema exC6 10 true = [1, 13, 25] from by decide]
      show doublePass exC6 true 1 13 = true
      simp only [doublePass]
      exact exC6_pass)

/-- Counterexample for C3 as stated: on the 50-bar series the final (and
only) adjacent pair of high extrema, (1, 13), passes every double-top test,
yet the detector emits nothing, because `range(1, len(high_idx)-1)` never
examines the pair ending at the last extremum. -/
theorem double_final_pair_counterexample :
    argrelGt (highsOf exC3) 10 = [1, 13] ∧
    doubleTopPass exC3 (atr_volatility exC3) 1 13 = true ∧
    find_double_patterns exC3 10 = [] ∧
    detect_double_patterns exC3 = [] := by
  have hg : argrelGt (highsOf exC3) 10 = [1, 13] := by decide
  have hl : argrelLt (lowsOf exC3) 10 = [7] := by decide
  have hempty : find_double_patterns exC3 10 = [] := by
    simp only [find_double_patterns, hg, hl]
    norm_num [List.range_succ]
  refine ⟨hg, exC3_pass, hempty, ?_⟩
  unfold detect_double_patterns
  rw [if_neg (by norm_num [exC3])]
  exact hempty

/-- Every double-top pass implies the geometric invariant of its emitted
candidate (for well-formed OHLC data). -/
lemma doubleTopPass_invariant (df : List PBar) (idx1 idx2 : Nat)
    (hpass : doubleTopPass df (atr_volatility df) idx1 idx2 = true)
    (hwf : wellFormed df) : doubleTopInvariant df (mkDoubleTop df idx1 idx2) := by
  simp only [doubleTopPass, Bool.and_eq_true, decide_eq_true_eq] at hpass
  obtain ⟨⟨⟨⟨hspan, hdiff⟩, hlt⟩, hh1⟩, hh2⟩ := hpass
  rw [sliceArgmin_getD] at hh1 hh2
  have hm1 : sliceMin (lowsOf df) (min idx1 idx2) (max idx1 idx2) ≤ (df.getD idx1 dPB).low := by
    rw [← lowsOf_getD]
    exact sliceMin_le _ _ _ _ (min_le_left _ _) (le_max_left _ _)
  have hm2 : sliceMin (lowsOf df) (min idx1 idx2) (max idx1 idx2) ≤ (df.getD idx2 dPB).low := by
    rw [← lowsOf_getD]
    exact sliceMin_le _ _ _ _ (min_le_right _ _) (le_max_right _ _)
  have hw1 := wellFormed_getD df hwf idx1
  have hw2 := wellFormed_getD df hwf idx2
  simp only [doubleTopInvariant, mkDoubleTop]
  refine ⟨hdiff, ?_, ?_⟩
  · rwa [abs_of_nonneg (by linarith)] at hh1
  · rwa [abs_of_nonneg (by linarith)] at hh2

/-- C6 (confirmed): every emitted double-top candidate (on well-formed OHLC
data) has peak highs whose difference, relative to the average of the two
peaks, is at most `1.0 * atr_volatility`, and each peak sits at least
`2.0 * atr_volatility` (relative to that peak's price) above the minimum low
between the peaks, where `atr_volatility = mean(ATR / close)` over the whole
window. -/
theorem double_top_height_invariant (df : List PBar) (window : Nat)
    (p : DoublePattern) (hp : p ∈ find_double_patterns df window)
    (hty : p.ptype = PatternType.double_top) (hwf : wellFormed df) :
    doubleTopInvariant df p := by
  simp only [find_double_patterns, List.mem_append, List.mem_filterMap,
    List.mem_range] at hp
  rcases hp with ⟨i, hi, hfi⟩ | ⟨i, hi, hfi⟩
  · split_ifs at hfi with hc hpass
    all_goals first
      | (obtain rfl := Option.some.inj hfi
         exact doubleTopPass_invariant df _ _ hpass hwf)
      | exact absurd hfi (by simp)
  · split_ifs at hfi with hc hpass
    all_goals first
      | (obtain rfl := Option.some.inj hfi
         exact absurd hty (by simp [mkDoubleBottom]))
      | exact absurd hfi (by simp)

/-- Witness for C6: the emitted double top (1, 13) of the 27-bar series. -/
theorem double_top_height_invariant_witness :
    doubleTopInvariant exC6 (mkDoubleTop exC6 1 13) :=
  double_top_height_invariant exC6 10 (mkDoubleTop exC6 1 13)
    (by rw [exC6_patterns]; exact List.mem_singleton_self _) (by decide) (by decide)

lemma hsTopPass_dominates (df : List PBar) (ls hd rs : Nat)
    (hpass : hsTopPass df (atr_volatility df) ls hd rs = true) :
    headDominates df (mkHSTop df ls hd rs) := by
  simp only [hsTopPass, Bool.and_eq_true, decide_eq_true_eq] at hpass
  obtain ⟨⟨⟨⟨⟨⟨⟨⟨-, -⟩, hl⟩, hr⟩, -⟩, -⟩, -⟩, -⟩, -⟩ := hpass
  simp only [headDominates, mkHSTop]
  exact ⟨hl, hr⟩

lemma hsBottomPass_dominates (df : List PBar) (ls hd rs : Nat)
    (hpass : hsBottomPass df (atr_volatility df) ls hd rs = true) :
    headDominates df (mkHSBottom df ls hd rs) := by
  simp only [hsBottomPass, Bool.and_eq_true, decide_eq_true_eq] at hpass
  obtain ⟨⟨⟨⟨⟨⟨⟨⟨-, -⟩, hl⟩, hr⟩, -⟩, -⟩, -⟩, -⟩, -⟩ := hpass
  simp only [headDominates, mkHSBottom]
  exact ⟨hl, hr⟩

/-- C7 (confirmed): in every emitted head-and-shoulders candidate the head
strictly dominates both shoulders — strictly higher high for a top, strictly
lower low for a bottom. -/
theorem hs_head_dominates (df : List PBar) (window : Nat) (p : HSPattern)
    (hp : p ∈ find_head_shoulder_patterns df window) : headDominates df p := by
  simp only [find_head_shoulder_patterns, List.mem_append, List.mem_filterMap,
    List.mem_range] at hp
  rcases hp with ⟨i, hi, hfi⟩ | ⟨i, hi, hfi⟩
  · split_ifs at hfi with hc hpass
    all_goals first
      | (obtain rfl := Option.some.inj hfi
         exact hsTopPass_dominates df _ _ _ hpass)
      | exact absurd hfi (by simp)
  · split_ifs at hfi with hc hpass
    all_goals first
      | (obtain rfl := Option.some.inj hfi
         exact hsBottomPass_dominates df _ _ _ hpass)
      | exact absurd hfi (by simp)

/-- Witness for C7: the emitted head-and-shoulders top (1, 9, 17) of the
35-bar series. -/
theorem hs_head_dominates_witness : headDominates exC7 (mkHSTop exC7 1 9 17) :=
  hs_head_dominates exC7 7 (mkHSTop exC7 1 9 17)
    (by rw [exC7_patterns]; exact List.mem_singleton_self _)

lemma scanBars_cases (top : Bool) (s t : ℚ) (l : List PBar) :
    ((scanBars top s t l).1 = true ∧ (scanBars top s t l).2 = false ∧
        some (!(scanBars top s t l).1 && !(scanBars top s t l).2) = some false) ∨
    ((scanBars top s t l).1 = false ∧ (scanBars top s t l).2 = true ∧
        some (!(scanBars top s t l).1 && !(scanBars top s t l).2) = some false) ∨
    ((scanBars top s t l).1 = false ∧ (scanBars top s t l).2 = false ∧
        some (!(scanBars top s t l).1 && !(scanBars top s t l).2) = some true) := by
  have hnb := scanBars_not_both top s t l
  rcases hb : scanBars top s t l with ⟨s1, s2⟩
  rw [hb] at hnb
  cases s1 <;> cases s2 <;> simp_all

/-- C4 (confirmed): with at least 48 subsequent bars the backtest scans
exactly the next 48 bars in order; the hit flags are decided by the first bar
breaching either level, with the stop checked before the target inside each
bar (a bar satisfying both counts as a stop); and exactly one of `hit_stop`,
`hit_target`, `no_action` is true. -/
theorem backtest_run_spec (df : List PBar) (pt : PatternType) (idx : Nat)
    (h : idx + 48 < df.length) : BacktestRunProp df pt idx := by
  have hg : ¬ df.length ≤ idx + 48 := by omega
  unfold BacktestRunProp backtest_pattern
  simp only [if_neg hg]
  refine ⟨?_, ?_, ?_, ?_⟩
  · rw [List.length_take, List.length_drop]
    omega
  · exact scanBars_fst _ _ _ _
  · exact scanBars_snd _ _ _ _
  · exact scanBars_cases _ _ _ _

/-- Witness for C4: the 50 constant bars at index 0 (no level ever touched,
`no_action`). -/
theorem backtest_run_spec_witness : BacktestRunProp exBT PatternType.double_top 0 :=
  backtest_run_spec exBT PatternType.double_top 0 (by decide)

/-- Counts are additive under append. -/
lemma successCount_append (rs extra : List BTRecord) :
    successCount (rs ++ extra) = successCount rs + successCount extra := by
  simp [successCount, List.filter_append]

lemma firstStopCount_append (rs extra : List BTRecord) :
    firstStopCount (rs ++ extra) = firstStopCount rs + firstStopCount extra := by
  simp [firstStopCount, List.filter_append]

lemma successCount_no_action (extra : List BTRecord)
    (hx : ∀ r ∈ extra, r.hit_stop = false ∧ r.hit_target = false) :
    successCount extra = 0 := by
  unfold successCount
  rw [List.length_eq_zero, List.filter_eq_nil]
  intro r hr
  simp [(hx r hr).2]

lemma firstStopCount_no_action (extra : List BTRecord)
    (hx : ∀ r ∈ extra, r.hit_stop = false ∧ r.hit_target = false) :
    firstStopCount extra = 0 := by
  unfold firstStopCount
  rw [List.length_eq_zero, List.filter_eq_nil]
  intro r hr
  simp [(hx r hr).1]

/-- C1 (amended): the overall and per-pattern-type win rates equal
`successes / (successes + first-stop-losses) * 100`, so `no_action` outcomes
are excluded there and appending `no_action` outcomes leaves the overall win
rate unchanged; the per-indicator-combination breakdown instead divides the
successes by all samples of the combination, `no_action` included (see the
counterexample). -/
theorem winrate_formula (rs extra : List BTRecord) (pt : PatternType)
    (c : List Indicator)
    (hx : ∀ r ∈ extra, r.hit_stop = false ∧ r.hit_target = false)
    (heff : 0 < successCount rs + firstStopCount rs)
    (heffp : 0 < successCount (rs.filter (fun r => r.pattern_type = pt)) +
      firstStopCount (rs.filter (fun r => r.pattern_type = pt))) :
    winRate rs = (successCount rs : ℚ) /
      ((successCount rs : ℚ) + (firstStopCount rs : ℚ)) * 100 ∧
    winRate (rs ++ extra) = winRate rs ∧
    patternWinRate rs pt = (successCount (rs.filter (fun r => r.pattern_type = pt)) : ℚ) /
      ((successCount (rs.filter (fun r => r.pattern_type = pt)) : ℚ) +
        (firstStopCount (rs.filter (fun r => r.pattern_type = pt)) : ℚ)) * 100 ∧
    comboWinRate rs c = (successCount (comboFilter rs c) : ℚ) /
      ((comboFilter rs c).length : ℚ) * 100 := by
  refine ⟨?_, ?_, ?_, rfl⟩
  · unfold winRate
    rw [if_pos heff]
    push_cast
    rfl
  · have hs : successCount (rs ++ extra) = successCount rs := by
      rw [successCount_append, successCount_no_action extra hx, add_zero]
    have hf : firstStopCount (rs ++ extra) = firstStopCount rs := by
      rw [firstStopCount_append, firstStopCount_no_action extra hx, add_zero]
    unfold winRate
    rw [hs, hf]
  · unfold patternWinRate winRate
    rw [if_pos heffp]
    push_cast
    rfl

/-- Witness for C1: the six-record table plus one extra no-action record. -/
theorem winrate_formula_witness :
    winRate rs6 = (successCount rs6 : ℚ) /
      ((successCount rs6 : ℚ) + (firstStopCount rs6 : ℚ)) * 100 ∧
    winRate (rs6 ++ [⟨PatternType.double_top, false, false, true, true, true, true⟩]) =
      winRate rs6 ∧
    patternWinRate rs6 PatternType.double_top =
      (successCount (rs6.filter (fun r => r.pattern_type = PatternType.double_top)) : ℚ) /
        ((successCount (rs6.filter (fun r => r.pattern_type = PatternType.double_top)) : ℚ) +
          (firstStopCount (rs6.filter (fun r => r.pattern_type = PatternType.double_top)) : ℚ)) *
        100 ∧
    comboWinRate rs6 exCombo = (successCount (comboFilter rs6 exCombo) : ℚ) /
      ((comboFilter rs6 exCombo).length : ℚ) * 100 :=
  winrate_formula rs6 [⟨PatternType.double_top, false, false, true, true, true, true⟩]
    PatternType.double_top exCombo (by decide) (by decide) (by decide)

/-- Counterexample for C1 as stated: on a qualifying combination (six samples,
all flags true: three successes, one first stop, two no-action) the reported
combination win rate is 50% while the claimed definition — successes over
successes plus first stops — gives 75%. -/
theorem combo_winrate_counterexample :
    comboQualifies rs6 exCombo = true ∧
    comboWinRate rs6 exCombo = 50 ∧
    winRate (comboFilter rs6 exCombo) = 75 ∧
    comboWinRate rs6 exCombo ≠ winRate (comboFilter rs6 exCombo) := by
  have h1 : successCount (comboFilter rs6 exCombo) = 3 := by decide
  have h2 : firstStopCount (comboFilter rs6 exCombo) = 1 := by decide
  have h3 : (comboFilter rs6 exCombo).length = 6 := by decide
  have hc : comboWinRate rs6 exCombo = 50 := by
    unfold comboWinRate
    rw [h1, h3]
    norm_num
  have hw : winRate (comboFilter rs6 exCombo) = 75 := by
    unfold winRate
    rw [h1, h2]
    norm_num
  exact ⟨by decide, hc, hw, by rw [hc, hw]; norm_num⟩

end CryptoMonitor
